import Mathlib

/-!
Verification of the Customer-Value-Optimizer pipeline core.

This file gives a shallow embedding of the data-cleaning, clustering,
threshold, classification, co-occurrence, and NBO-scoring functions of the
repository, translated from the Python sources:

  * `src/pipeline/cvo_nbo_advanced_v4_2.py` — `parse_bandwidth_smart`,
    `clean_tenure_smart`, `build_cooccurrence_matrix`,
    `get_cooccurrence_boost`, `calculate_nbo_score_v4_2`, `assign_strategy`;
  * `src/ml/cvo_ml_indonesia_v21.py` — the exclusion masks of
    `segment_customers`, the per-cluster threshold computation and
    `klasifikasi_bw` of `create_strategic_matrices`, and the
    excluded-customer score override of `generate_predictions`;
  * `cvo_nbo_v30.py` — `classify_customer` of `create_strategic_matrices`.

Python strings are Lean `String`s; a possibly-missing cell (pandas `NaN`)
is `Option String`; numeric columns are `ℚ` (the data contains only
decimal values, and every constant in the scored paths is dyadic, so `ℚ`
is exact for them); pandas row sets are `List`s of record structures; a
Python dict keyed by strings is a function `String → Option _`, and the
co-occurrence `defaultdict(int)` table is a total function `String →
String → ℕ` (entries are created only by `+= 1`, so key presence
coincides with a positive count).
-/

/-- Character code 39, the ASCII single-quote character. -/
def squote : Char := Char.ofNat 39

/-- Python `\s` whitespace (ASCII range): space, tab, newline, carriage
return, vertical tab, form feed. -/
def isPyWs (c : Char) : Bool :=
  c = ' ' || c = '\t' || c = '\n' || c = '\r' || c = Char.ofNat 11 || c = Char.ofNat 12

/-- Python `str.upper()` restricted to ASCII letters (the data in the
scored columns is ASCII). -/
def pyUpper (s : String) : String := ⟨s.data.map Char.toUpper⟩

/-- Python `str.strip()`: remove leading and trailing whitespace. -/
def pyStrip (s : String) : String :=
  ⟨((s.data.dropWhile isPyWs).reverse.dropWhile isPyWs).reverse⟩

/-- Test whether `pat` occurs at the beginning of `l`. -/
def startsWithL : List Char → List Char → Bool
  | [], _ => true
  | _ :: _, [] => false
  | a :: as, b :: bs => a == b && startsWithL as bs

/-- Test whether `pat` occurs contiguously anywhere inside `l`: the
Python `pat in s` substring test. -/
def containsL (l pat : List Char) : Bool :=
  match l with
  | [] => pat.isEmpty
  | _ :: rest => startsWithL pat l || containsL rest pat

/-- Python substring test `pat in s`. -/
def strContains (s pat : String) : Bool := containsL s.data pat.data

/-- Python `str.isdigit()` (ASCII digits): nonempty and all digits. -/
def pyIsDigit (s : String) : Bool := !s.data.isEmpty && s.data.all Char.isDigit

/-- Decimal value of a digit run, as Python `int` of the run. -/
def digitsToNat (l : List Char) : ℕ := l.foldl (fun n c => 10 * n + (c.toNat - 48)) 0

/-- Tail of the quoted-digits regex after the opening quote and first digit:
zero or more further digits followed by the closing quote at the end. -/
def qRest : List Char → Bool
  | [] => false
  | [c] => c == squote
  | c :: rest => c.isDigit && qRest rest

/-- Tail of the quoted-digits regex after the opening quote: one or more
digits followed by the closing quote at the end. -/
def qDigits : List Char → Bool
  | [] => false
  | [_] => false
  | c :: rest => c.isDigit && qRest rest

/-- Python re.match of the anchored quoted-digits regex (opening single
quote, one or more digits, closing single quote): a single-quoted nonempty digit
run and nothing else. -/
def isQuotedDigits (s : String) : Bool :=
  match s.data with
  | [] => false
  | c :: rest => c == squote && qDigits rest

/-- Python re.search for a digit run: the first maximal digit run of `s`,
as a number, if any digit occurs. -/
def firstNumber : List Char → Option ℕ
  | [] => none
  | c :: rest =>
      if c.isDigit then some (digitsToNat ((c :: rest).takeWhile Char.isDigit))
      else firstNumber rest

/-- Python re.search for a digit run followed by a unit token, on the uppercased
string: scan left to right for a digit run followed by optional
whitespace and an `MBPS` or `GBPS` token; return the value of the run and
whether the unit was `GBPS`. Restarting the scan inside a digit run
cannot succeed where starting at the head of the run failed (the greedy digit pattern
always reaches the same suffix), so the character-by-character scan has
the same leftmost-match semantics as `re.search`. -/
def findBwMatch : List Char → Option (ℕ × Bool)
  | [] => none
  | c :: rest =>
      if c.isDigit then
        let ds := (c :: rest).takeWhile Char.isDigit
        let after := ((c :: rest).dropWhile Char.isDigit).dropWhile isPyWs
        if startsWithL "MBPS".data after then some (digitsToNat ds, false)
        else if startsWithL "GBPS".data after then some (digitsToNat ds, true)
        else findBwMatch rest
      else findBwMatch rest

/-- Embedding of `parse_bandwidth_smart` (cvo_nbo_advanced_v4_2.py,
lines 110–144). Input `none` models a pandas `NaN` cell. -/
def parse_bandwidth_smart (input : Option String) : ℕ × String :=
  match input with
  | none => (0, "Non-Connectivity")
  | some s =>
      if s = "Tidak Ada" then (0, "Non-Connectivity")
      else
        let bw := pyStrip (pyUpper s)
        if strContains bw "IP" && !strContains bw "MBPS" && !strContains bw "GBPS" then
          (0, "IP-Only")
        else
          match findBwMatch bw.data with
          | some (n, true) => (n * 1000, "Connectivity")
          | some (n, false) => (n, "Connectivity")
          | none =>
              if strContains bw "E1" then (2, "Connectivity")
              else if pyIsDigit bw then (digitsToNat bw.data, "Connectivity")
              else (0, "Unknown")

/-- Embedding of `clean_tenure_smart` (cvo_nbo_advanced_v4_2.py,
lines 146–181). Input `none` models a pandas `NaN` cell. -/
def clean_tenure_smart (input : Option String) : ℕ :=
  match input with
  | none => 3
  | some v =>
      let s := pyStrip v
      if pyIsDigit s then min (digitsToNat s.data) 26
      else if isQuotedDigits s then min (digitsToNat ((s.data.drop 1).dropLast)) 26
      else if strContains s "Berkontrak" then 0
      else if strContains s "Tidak Valid" || strContains s "Invalid" then 3
      else
        match firstNumber s.data with
        | some n => min n 26
        | none => 3

/-- The table of co-occurrence counts: `co a b` is the count stored at
`co_occurrence[a][b]`, with absent keys read as 0 (entries of the nested
`defaultdict(int)` are created only by increments, so a key pair is
present exactly when its count is positive). -/
def CoMat : Type := String → String → ℕ

/-- Company profile as assembled by `process_data`
(cvo_nbo_advanced_v4_2.py, step 6): the fields of `company_data` that
`calculate_nbo_score_v4_2`, `assign_strategy` and `assign_priority` read. -/
structure Company where
  tier : String
  category : String
  revenue : ℚ
  bandwidth_mbps : ℚ
  bandwidth_type : String
  industry : String
  current_products : List String
  tenure_clean : ℚ
deriving DecidableEq

/-- Product record as assembled from the catalog in `process_data`
(cvo_nbo_advanced_v4_2.py, step 4), including the `tags` field that
`calculate_nbo_score_v4_2` reads through the get of `tags` with default `[]`. -/
structure Product where
  name : String
  category : String
  tier_level : ℤ
  cost_tier : ℤ
  min_bandwidth : ℚ
  complexity : String
  target_industries : List String
  tags : List String
deriving DecidableEq

/-- `TIER_LEVELS.get(tier, 2)` (cvo_nbo_advanced_v4_2.py, lines 41–46). -/
def TIER_LEVELS (s : String) : ℤ :=
  if s = "DI-TS" then 1
  else if s = "DI-SDS-TS" then 2
  else if s = "DI-SDS-SDS" then 3
  else if s = "ALL NOMENKLATUR" then 4
  else 2

/-- The `(category, level)` level of `categorize_arpu_realistic`
(cvo_nbo_advanced_v4_2.py, lines 94–108); a `ℚ` revenue is never NaN, so
the `pd.isna` disjunct is subsumed by the model. -/
def arpu_level (revenue : ℚ) : ℤ :=
  if revenue = 0 then 0
  else if revenue < 1000000 then 1
  else if revenue < 3500000 then 2
  else if revenue < 15000000 then 3
  else 4

/-- Factor 1 of `calculate_nbo_score_v4_2`: tier compatibility. -/
def factor1_tier (c : Company) (p : Product) : ℚ :=
  let tier_diff := p.tier_level - TIER_LEVELS c.tier
  if tier_diff = 0 then 15
  else if tier_diff = 1 then 12
  else if tier_diff = 2 then 8
  else 3

/-- Factor 2 of `calculate_nbo_score_v4_2`: category match. -/
def factor2_category (c : Company) (p : Product) : ℚ :=
  if p.category = c.category then 15
  else if (p.category = "Technology Services" ∨ p.category = "Digital Infrastructure") ∧
          (c.category = "Technology Services" ∨ c.category = "Digital Infrastructure") then 10
  else 5

/-- Factor 3 of `calculate_nbo_score_v4_2`: bandwidth suitability. -/
def factor3_bandwidth (c : Company) (p : Product) : ℚ :=
  if c.bandwidth_type = "IP-Only" then
    if p.category = "Connectivity" then 15
    else if p.min_bandwidth = 0 then 15
    else 5
  else if p.min_bandwidth = 0 then 15
  else if c.bandwidth_mbps ≥ p.min_bandwidth * (3 / 2) then 15
  else if c.bandwidth_mbps ≥ p.min_bandwidth then 10
  else if c.bandwidth_mbps ≥ p.min_bandwidth * (1 / 2) then 5
  else 2

/-- Factor 4 of `calculate_nbo_score_v4_2`: industry fit. -/
def factor4_industry (c : Company) (p : Product) : ℚ :=
  if p.target_industries ≠ [] ∧ c.industry ∈ p.target_industries then 15
  else if (c.industry = "BANKING & FINANCIAL" ∨ c.industry = "GOVERNMENT") ∧
          strContains p.name "Security" then 12
  else if c.industry = "MANUFACTURE" ∧ strContains p.name "IoT" then 12
  else 5

/-- Embedding of `get_cooccurrence_boost` (cvo_nbo_advanced_v4_2.py,
lines 234–245): accumulate `count / total_companies * 20` over the
current products of the customer (key presence modelled as a positive count),
then cap at 20. -/
def get_cooccurrence_boost (company_products : List String) (candidate : String)
    (co : CoMat) (total : ℕ) : ℚ :=
  let boost := company_products.foldl
    (fun b cur =>
      if 0 < co cur candidate then b + ((co cur candidate : ℚ) / (total : ℚ)) * 20 else b) 0
  min boost 20

/-- Factor 5 of `calculate_nbo_score_v4_2`: current-product-gap /
co-occurrence boost, capped at 10. -/
def factor5_cooccurrence (c : Company) (p : Product) (co : CoMat) (total : ℕ) : ℚ :=
  if c.current_products ≠ [] then
    min (get_cooccurrence_boost c.current_products p.name co total) 10
  else 5

/-- Factor 6 of `calculate_nbo_score_v4_2`: regional availability,
a flat 5 points. -/
def factor6_regional : ℚ := 5

/-- Factor 7 of `calculate_nbo_score_v4_2`: ARPU affordability. -/
def factor7_affordability (c : Company) (p : Product) : ℚ :=
  if c.revenue = 0 then
    if p.cost_tier = 1 then 8 else 3
  else
    let tier_diff := p.cost_tier - arpu_level c.revenue
    if tier_diff = 0 then 15
    else if tier_diff = 1 then 12
    else if tier_diff = 2 then 7
    else 2

/-- Factor 8 of `calculate_nbo_score_v4_2`: tenure strategy, including
the extra 5-point boost for `Retention`-tagged products when the
customer is at the contract-renewal sentinel (tenure 0). -/
def factor8_tenure (c : Company) (p : Product) : ℚ :=
  if c.tenure_clean = 0 then
    (if p.complexity = "Simple" then 10 else 3) +
      (if "Retention" ∈ p.tags then 5 else 0)
  else if c.tenure_clean < 1 / 2 then
    if p.complexity = "Simple" then 10 else 3
  else if c.tenure_clean < 2 then
    if p.complexity = "Simple" ∨ p.complexity = "Medium" then 10 else 6
  else if c.tenure_clean ≤ 5 then 10
  else if p.complexity = "Medium" ∨ p.complexity = "Complex" then 10 else 7

/-- Embedding of `calculate_nbo_score_v4_2` (cvo_nbo_advanced_v4_2.py,
lines 251–364): the sum of the eight factor contributions, clamped to
at most 100. -/
def calculate_nbo_score_v4_2 (c : Company) (p : Product) (co : CoMat) (total : ℕ) : ℚ :=
  min (factor1_tier c p + factor2_category c p + factor3_bandwidth c p +
       factor4_industry c p + factor5_cooccurrence c p co total +
       factor6_regional + factor7_affordability c p + factor8_tenure c p) 100

/-- Embedding of `assign_strategy` (cvo_nbo_advanced_v4_2.py,
lines 366–382): the 4-quadrant split over the fixed thresholds
revenue 3 500 000 and bandwidth 10 Mbps. -/
def assign_strategy (c : Company) : String × String :=
  if c.revenue ≥ 3500000 ∧ c.bandwidth_mbps ≥ 10 then ("Star", "RETAIN")
  else if c.revenue ≥ 3500000 ∧ c.bandwidth_mbps < 10 then ("Risk", "CROSS-SELL")
  else if c.revenue < 3500000 ∧ c.bandwidth_mbps ≥ 10 then ("Sniper", "UPSELL")
  else ("Incubator", "AUTOMATE")

/-- Customer row of the v21 engine (cvo_ml_indonesia_v21.py) after
`segment_customers`: the columns read by the exclusion masks and by
`klasifikasi_bw`. -/
structure RowV21 where
  cluster_bandwidth : String
  pendapatan : ℚ
  bandwidth_mbps : ℚ
  exclude_upsell : ℕ
  exclude_reason : String
deriving DecidableEq

/-- The exclusion flag set by `segment_customers`
(cvo_ml_indonesia_v21.py, lines 213–226): starting at 0, then set to
1 by the ATM mask (lowest cluster, bandwidth below 1 Mbps) and by the
backbone mask (highest cluster, bandwidth above 5000 Mbps). -/
def segment_exclude_upsell (r : RowV21) : ℕ :=
  if (r.cluster_bandwidth = "LOW_BANDWIDTH_GROUP" ∧ r.bandwidth_mbps < 1) ∨
     (r.cluster_bandwidth = "HIGH_BANDWIDTH_GROUP" ∧ r.bandwidth_mbps > 5000) then 1 else 0

/-- The excluded-customer override of `generate_predictions`
(cvo_ml_indonesia_v21.py, lines 554–556): rows with `exclude_upsell == 1`
get their final upsell score forced to 0, others keep the model score. -/
def final_upsell_score (exclude_upsell : ℕ) (model_score : ℚ) : ℚ :=
  if exclude_upsell = 1 then 0 else model_score

/-- Sort a list of rationals ascending (pandas sorts the column before
taking order statistics; any correct sort yields the same sorted list). -/
def sortQ (l : List ℚ) : List ℚ := l.insertionSort (· ≤ ·)

/-- Pandas `Series.quantile(q)` with the default linear interpolation:
at fractional position `(n-1)·q` of the sorted values. The empty case is
unreachable in the embedded code (it is guarded by a nonemptiness check)
and returns 0. -/
def quantileQ (l : List ℚ) (q : ℚ) : ℚ :=
  let s := sortQ l
  match s with
  | [] => 0
  | _ :: _ =>
      let h : ℚ := ((s.length : ℚ) - 1) * q
      let i : ℕ := (Int.floor h).toNat
      let j : ℕ := (Int.ceil h).toNat
      let a := s.getD i 0
      let b := s.getD j 0
      a + (h - (i : ℚ)) * (b - a)

/-- Pandas `Series.median`, which equals the 0.5 quantile with linear
interpolation (mean of the two middle values for even length). -/
def medianQ (l : List ℚ) : ℚ := quantileQ l (1 / 2)

/-- Threshold bundle computed per cluster by `create_strategic_matrices`
(cvo_ml_indonesia_v21.py, lines 310–332). -/
structure ThreshV21 where
  median_pendapatan : ℚ
  median_bandwidth : ℚ
  q75_bandwidth : ℚ
  q25_pendapatan : ℚ
  avg_pendapatan : ℚ
deriving DecidableEq

/-- Embedding of the per-cluster threshold dictionary of
`create_strategic_matrices` (cvo_ml_indonesia_v21.py, lines 310–332):
a cluster has an entry exactly when it is not the `TIDAK_DIKETAHUI`
placeholder and has at least one member row; the bundle is computed from
the rows of that cluster only. -/
def cluster_thresholds (df : List RowV21) (cluster : String) : Option ThreshV21 :=
  if cluster = "TIDAK_DIKETAHUI" then none
  else
    let data := df.filter fun r => r.cluster_bandwidth == cluster
    if data.isEmpty then none
    else
      some
        { median_pendapatan := medianQ (data.map (·.pendapatan))
          median_bandwidth := medianQ (data.map (·.bandwidth_mbps))
          q75_bandwidth := quantileQ (data.map (·.bandwidth_mbps)) (3 / 4)
          q25_pendapatan := quantileQ (data.map (·.pendapatan)) (1 / 4)
          avg_pendapatan := (data.map (·.pendapatan)).sum / (data.length : ℚ) }

/-- Embedding of `klasifikasi_bw` (cvo_ml_indonesia_v21.py,
lines 342–385): branch on threshold availability, then the exclusion
flag, then the cluster family, then the two per-cluster boolean axes. -/
def klasifikasi_bw (thresholds : String → Option ThreshV21) (row : RowV21) :
    String × String :=
  let cluster := row.cluster_bandwidth
  if cluster = "TIDAK_DIKETAHUI" then
    ("❓ BELUM_TERKATEGORI", "PERLU_ANALISIS - Data tidak lengkap")
  else
    match thresholds cluster with
    | none => ("❓ BELUM_TERKATEGORI", "PERLU_ANALISIS - Data tidak lengkap")
    | some thresh =>
        let pendapatan_tinggi := row.pendapatan ≥ thresh.median_pendapatan
        let bandwidth_tinggi := row.bandwidth_mbps ≥ thresh.median_bandwidth
        if row.exclude_upsell = 1 then ("🚫 DIKECUALIKAN", row.exclude_reason)
        else if cluster = "LOW_BANDWIDTH_GROUP" then
          if pendapatan_tinggi then
            ("📱 UMKM_POTENSIAL", "CROSS-SELL - Solusi Digital UMKM (Wifi, Cloud)")
          else ("🥚 UMKM_PEMULA", "EDUKASI - Digitalisasi Bisnis")
        else if cluster = "HIGH_BANDWIDTH_GROUP" then
          if pendapatan_tinggi ∧ bandwidth_tinggi then
            ("🏢 ENTERPRISE_BINTANG", "PERTAHANKAN - Kontrak Jangka Panjang & SLA")
          else if pendapatan_tinggi then
            ("🔗 BACKBONE_OPTIMAL", "CROSS-SELL - Managed Services & Security")
          else if bandwidth_tinggi then
            ("📡 ISP_POTENSI", "RENEGOSIASI - Harga Kompetitif & Bundling")
          else ("🏗️  ENTERPRISE_BARU", "KONSTRUKSI - Bangun Relasi & Trust")
        else
          if pendapatan_tinggi ∧ bandwidth_tinggi then
            ("🌟 PELANGGAN_BINTANG", "PERTAHANKAN - Layanan Premium & Dedicated Support")
          else if pendapatan_tinggi ∧ ¬bandwidth_tinggi then
            ("🎯 AREA_RISIKO", "CROSS-SELL - Smart Home, PV Rooftop, EV Charging")
          else if ¬pendapatan_tinggi ∧ bandwidth_tinggi then
            ("🔫 ZONA_SNIPER", "UPSELL - Upgrade Bandwidth + Managed Services")
          else ("🥚 INKUBATOR", "EDUKASI - Demo Produk & Onboarding")

/-- Threshold bundle of the v30 engine (cvo_nbo_v30.py, lines 443–452). -/
structure ThreshV30 where
  median_pendapatan : ℚ
  median_bandwidth : ℚ
  q75_pendapatan : ℚ
  q25_pendapatan : ℚ
deriving DecidableEq

/-- Customer row of the v30 engine as read by `classify_customer`. -/
structure RowV30 where
  bandwidth_cluster : String
  pendapatan : ℚ
  bandwidth_mbps : ℚ
deriving DecidableEq

/-- The chained dictionary read
`cluster_thresholds.get(cluster, {}).get(key, 0)` of `classify_customer`
(cvo_nbo_v30.py): a missing cluster entry silently reads as threshold 0. -/
def thrGet (t : String → Option ThreshV30) (c : String) (f : ThreshV30 → ℚ) : ℚ :=
  match t c with
  | none => 0
  | some th => f th

/-- Embedding of `classify_customer` (cvo_nbo_v30.py, lines 455–501). -/
def classify_customer (t : String → Option ThreshV30) (row : RowV30) :
    String × String :=
  let cluster := row.bandwidth_cluster
  if cluster = "NO_BANDWIDTH" then
    if row.pendapatan ≥ thrGet t cluster (·.median_pendapatan) then
      ("[TARGET] NON-BW HIGH VALUE", "CROSS-SELL - Add Connectivity or Digital Solutions")
    else (" NON-BW ENTRY", "EDUKASI - Introduce Value-Added Services")
  else if cluster = "ATM_IOT" then
    ("[SAT] ATM/IoT", "MAINTAIN - Ensure Reliability, No BW Upsell Needed")
  else if cluster = "UMKM_SMALL" then
    if row.pendapatan ≥ thrGet t cluster (·.median_pendapatan) then
      ("[MOBILE] UMKM POTENSIAL", "UPSELL - Upgrade to Corporate Package")
    else (" UMKM PEMULA", "EDUKASI - Digital Business Solutions")
  else if cluster = "CORPORATE" then
    let high_rev := row.pendapatan ≥ thrGet t cluster (·.median_pendapatan)
    let high_bw := row.bandwidth_mbps ≥ thrGet t cluster (·.median_bandwidth)
    if high_rev ∧ high_bw then
      ("[STAR] CORPORATE BINTANG", "PERTAHANKAN - Premium Support & Bundle")
    else if high_rev ∧ ¬high_bw then
      ("[TARGET] CORPORATE RISIKO", "CROSS-SELL - Smart Solutions, PV, EV")
    else if ¬high_rev ∧ high_bw then
      (" CORPORATE SNIPER", "UPSELL - Increase Bandwidth & Add Services")
    else (" CORPORATE PEMULA", "EDUKASI - Demo & Onboarding")
  else if cluster = "ENTERPRISE" then
    if row.pendapatan ≥ thrGet t cluster (·.median_pendapatan) then
      ("[OFFICE] ENTERPRISE BINTANG", "PERTAHANKAN - SLA Premium & Consultative")
    else ("[SAT] ENTERPRISE POTENSI", "OPTIMIZE - Efficiency & Cost Management")
  else (" UNKNOWN", "ANALYZE")

/-- One double increment `co_occurrence[p1][p2] += 1;
co_occurrence[p2][p1] += 1` of `build_cooccurrence_matrix`, read as a
pointwise update of the count table (a diagonal pair `p1 = p2` lands
both increments on the same cell). -/
def bumpPair (co : CoMat) (p1 p2 : String) : CoMat :=
  fun a b =>
    co a b + (if a = p1 ∧ b = p2 then 1 else 0) + (if a = p2 ∧ b = p1 then 1 else 0)

/-- The inner loop `for p2 in products[i+1:]` of
`build_cooccurrence_matrix` for a fixed `p1`. -/
def innerLoop (p1 : String) (ps : List String) (co : CoMat) : CoMat :=
  ps.foldl (fun c p2 => bumpPair c p1 p2) co

/-- The outer loop `for i, p1 in enumerate(products)` of
`build_cooccurrence_matrix`: each element is paired with the elements
after it. -/
def pairLoop : List String → CoMat → CoMat
  | [], co => co
  | p :: rest, co => pairLoop rest (innerLoop p rest co)

/-- Embedding of `build_cooccurrence_matrix` (cvo_nbo_advanced_v4_2.py,
lines 210–232): fold the pair loop over the product list of every customer,
starting from the empty (all-zero) table. -/
def build_cooccurrence_matrix (customers : List (List String)) : CoMat :=
  customers.foldl (fun co ps => pairLoop ps co) (fun _ _ => 0)

/-- Number of customers whose product list contains both `a` and `b`:
the reference count for the documented reading of the co-occurrence table. -/
def countBoth (customers : List (List String)) (a b : String) : ℕ :=
  customers.countP fun l => decide (a ∈ l) && decide (b ∈ l)

/-! Factor range lemmas for the NBO scoring engine. -/

theorem factor1_bounds (c : Company) (p : Product) :
    3 ≤ factor1_tier c p ∧ factor1_tier c p ≤ 15 := by
  unfold factor1_tier
  dsimp only
  split_ifs <;> norm_num

theorem factor2_bounds (c : Company) (p : Product) :
    5 ≤ factor2_category c p ∧ factor2_category c p ≤ 15 := by
  unfold factor2_category
  split_ifs <;> norm_num

theorem factor3_bounds (c : Company) (p : Product) :
    2 ≤ factor3_bandwidth c p ∧ factor3_bandwidth c p ≤ 15 := by
  unfold factor3_bandwidth
  split_ifs <;> norm_num

theorem factor4_bounds (c : Company) (p : Product) :
    5 ≤ factor4_industry c p ∧ factor4_industry c p ≤ 15 := by
  unfold factor4_industry
  split_ifs <;> norm_num

theorem boost_fold_nonneg (cand : String) (co : CoMat) (total : ℕ) :
    ∀ (l : List String) (b : ℚ), 0 ≤ b →
      0 ≤ l.foldl
        (fun b cur =>
          if 0 < co cur cand then b + ((co cur cand : ℚ) / (total : ℚ)) * 20 else b) b
  | [], b, hb => hb
  | cur :: rest, b, hb => by
      refine boost_fold_nonneg cand co total rest _ ?_
      dsimp only
      split_ifs
      · refine add_nonneg hb (mul_nonneg (div_nonneg ?_ ?_) (by norm_num)) <;>
          exact Nat.cast_nonneg _
      · exact hb

theorem factor5_bounds (c : Company) (p : Product) (co : CoMat) (total : ℕ) :
    0 ≤ factor5_cooccurrence c p co total ∧ factor5_cooccurrence c p co total ≤ 10 := by
  unfold factor5_cooccurrence
  split_ifs
  · constructor
    · refine le_min ?_ (by norm_num)
      unfold get_cooccurrence_boost
      exact le_min (boost_fold_nonneg _ _ _ _ 0 le_rfl) (by norm_num)
    · exact min_le_right _ _
  · norm_num

theorem factor7_bounds (c : Company) (p : Product) :
    2 ≤ factor7_affordability c p ∧ factor7_affordability c p ≤ 15 := by
  unfold factor7_affordability
  dsimp only
  split_ifs <;> norm_num

theorem factor8_bounds (c : Company) (p : Product) :
    3 ≤ factor8_tenure c p ∧ factor8_tenure c p ≤ 15 := by
  unfold factor8_tenure
  split_ifs <;> norm_num

theorem nbo_score_sum_bounds (c : Company) (p : Product) (co : CoMat) (total : ℕ) :
    25 ≤ factor1_tier c p + factor2_category c p + factor3_bandwidth c p +
          factor4_industry c p + factor5_cooccurrence c p co total +
          factor6_regional + factor7_affordability c p + factor8_tenure c p ∧
    factor1_tier c p + factor2_category c p + factor3_bandwidth c p +
          factor4_industry c p + factor5_cooccurrence c p co total +
          factor6_regional + factor7_affordability c p + factor8_tenure c p ≤ 105 := by
  obtain ⟨h1a, h1b⟩ := factor1_bounds c p
  obtain ⟨h2a, h2b⟩ := factor2_bounds c p
  obtain ⟨h3a, h3b⟩ := factor3_bounds c p
  obtain ⟨h4a, h4b⟩ := factor4_bounds c p
  obtain ⟨h5a, h5b⟩ := factor5_bounds c p co total
  obtain ⟨h7a, h7b⟩ := factor7_bounds c p
  obtain ⟨h8a, h8b⟩ := factor8_bounds c p
  unfold factor6_regional
  constructor <;> linarith

/-- A company at the contract-renewal sentinel (`tenure_clean = 0`),
used to exhibit the retention bonus of factor 8. -/
def companyRenewal : Company :=
  { tier := "DI-TS", category := "Connectivity", revenue := 500000,
    bandwidth_mbps := 10, bandwidth_type := "Connectivity",
    industry := "MANUFACTURE", current_products := [], tenure_clean := 0 }

/-- A simple product carrying the `Retention` tag, used to exhibit the
retention bonus of factor 8. -/
def productRetention : Product :=
  { name := "Starter Care", category := "Connectivity", tier_level := 1,
    cost_tier := 1, min_bandwidth := 0, complexity := "Simple",
    target_industries := [], tags := ["Retention"] }

/-- C1 (counterexample): the tenure-complexity factor of
`calculate_nbo_score_v4_2` is not capped at its stated weight of 10 — for
a renewal-risk customer (tenure 0) and a `Simple` product tagged
`Retention` it contributes 15 (10 plus the 5-point retention boost), so
the per-factor maxima sum to 105, not 100. -/
theorem C1_factor_weights_counterexample :
    factor8_tenure companyRenewal productRetention = 15 ∧
    ¬ factor8_tenure companyRenewal productRetention ≤ 10 := by
  have h15 : factor8_tenure companyRenewal productRetention = 15 := by
    norm_num [factor8_tenure, companyRenewal, productRetention]
  refine ⟨h15, ?_⟩
  rw [h15]
  norm_num

/-- C1 (amended): every NBO score of `calculate_nbo_score_v4_2` lies in
`[0, 100]`, and seven of the eight factors are bounded by their stated
weights (tier 15, category 15, bandwidth 15, industry 15, co-occurrence
10, regional exactly 5, affordability 15); the tenure-complexity factor
however is bounded by 15 — its stated weight 10 plus the 5-point
`Retention`-tag bonus — so the attainable per-factor maxima sum to 105
and only the final clamp keeps the total at 100. -/
theorem C1_score_range_and_factor_bounds (c : Company) (p : Product)
    (co : CoMat) (total : ℕ) :
    0 ≤ calculate_nbo_score_v4_2 c p co total ∧
    calculate_nbo_score_v4_2 c p co total ≤ 100 ∧
    factor1_tier c p ≤ 15 ∧ factor2_category c p ≤ 15 ∧
    factor3_bandwidth c p ≤ 15 ∧ factor4_industry c p ≤ 15 ∧
    factor5_cooccurrence c p co total ≤ 10 ∧ factor6_regional = 5 ∧
    factor7_affordability c p ≤ 15 ∧ factor8_tenure c p ≤ 15 := by
  obtain ⟨hsl, _⟩ := nbo_score_sum_bounds c p co total
  refine ⟨?_, ?_, (factor1_bounds c p).2, (factor2_bounds c p).2,
    (factor3_bounds c p).2, (factor4_bounds c p).2,
    (factor5_bounds c p co total).2, rfl, (factor7_bounds c p).2,
    (factor8_bounds c p).2⟩
  · exact le_min (by linarith) (by norm_num)
  · exact min_le_right _ _

/-- C10: the NBO score is bounded below by 25: each factor except the
co-occurrence boost has a strictly positive minimum (tier 3, category 5,
bandwidth 2, industry 5, regional 5, affordability 2, tenure 3, and 0
for co-occurrence), so even a customer with no matching attribute at all
never scores 0. -/
theorem C10_score_at_least_25 (c : Company) (p : Product) (co : CoMat) (total : ℕ) :
    25 ≤ calculate_nbo_score_v4_2 c p co total := by
  obtain ⟨hsl, _⟩ := nbo_score_sum_bounds c p co total
  exact le_min hsl (by norm_num)

/-- Thresholds table with an entry for the lowest cluster only, used in
the C2 counterexample. -/
def tLowEx : String → Option ThreshV21 :=
  fun c => if c = "LOW_BANDWIDTH_GROUP" then some ⟨100, 10, 20, 50, 120⟩ else none

/-- Non-excluded lowest-cluster customer with low revenue and high
bandwidth relative to its cluster medians (pair `(false, true)`). -/
def rowLowFT : RowV21 := ⟨"LOW_BANDWIDTH_GROUP", 50, 50, 0, ""⟩

/-- Non-excluded lowest-cluster customer with low revenue and low
bandwidth relative to its cluster medians (pair `(false, false)`). -/
def rowLowFF : RowV21 := ⟨"LOW_BANDWIDTH_GROUP", 50, 5, 0, ""⟩

/-- C2 (counterexample): in `klasifikasi_bw` the generic four-quadrant
mapping does not hold for every non-excluded customer in a populated
cluster — in the `LOW_BANDWIDTH_GROUP` branch the bandwidth boolean is
ignored, so the `(false, true)` customer receives the same label as the
`(false, false)` customer (`🥚 UMKM_PEMULA`), not a Sniper/UPSELL
label. -/
theorem C2_quadrants_counterexample :
    klasifikasi_bw tLowEx rowLowFT = ("🥚 UMKM_PEMULA", "EDUKASI - Digitalisasi Bisnis") ∧
    klasifikasi_bw tLowEx rowLowFT = klasifikasi_bw tLowEx rowLowFF ∧
    (klasifikasi_bw tLowEx rowLowFT).1 ≠ "Sniper" ∧
    (klasifikasi_bw tLowEx rowLowFT).2 ≠ "UPSELL" := by
  have h1 : klasifikasi_bw tLowEx rowLowFT =
      ("🥚 UMKM_PEMULA", "EDUKASI - Digitalisasi Bisnis") := by
    simp [klasifikasi_bw, tLowEx, rowLowFT]
    norm_num
  have h2 : klasifikasi_bw tLowEx rowLowFF =
      ("🥚 UMKM_PEMULA", "EDUKASI - Digitalisasi Bisnis") := by
    simp [klasifikasi_bw, tLowEx, rowLowFF]
    norm_num
  refine ⟨h1, h1.trans h2.symm, ?_, ?_⟩ <;> rw [h1] <;> simp

/-- C2 (amended): for a non-excluded customer of the
`MID_BANDWIDTH_GROUP` cluster whose cluster has a computed threshold
bundle, `klasifikasi_bw` compares the revenue and bandwidth of the
customer against the own medians of that cluster and maps the boolean pair to one of
four pairwise-distinct labels: `(true, true) → 🌟 PELANGGAN_BINTANG /
PERTAHANKAN` (star/retain), `(true, false) → 🎯 AREA_RISIKO /
CROSS-SELL`, `(false, true) → 🔫 ZONA_SNIPER / UPSELL`,
`(false, false) → 🥚 INKUBATOR / EDUKASI`. Customers of the LOW and
HIGH cluster families receive cluster-specific label sets instead. -/
theorem C2_mid_cluster_quadrants (t : String → Option ThreshV21) (row : RowV21)
    (th : ThreshV21) (hc : row.cluster_bandwidth = "MID_BANDWIDTH_GROUP")
    (ht : t "MID_BANDWIDTH_GROUP" = some th) (hex : row.exclude_upsell ≠ 1) :
    (th.median_pendapatan ≤ row.pendapatan → th.median_bandwidth ≤ row.bandwidth_mbps →
      klasifikasi_bw t row =
        ("🌟 PELANGGAN_BINTANG", "PERTAHANKAN - Layanan Premium & Dedicated Support")) ∧
    (th.median_pendapatan ≤ row.pendapatan → ¬th.median_bandwidth ≤ row.bandwidth_mbps →
      klasifikasi_bw t row =
        ("🎯 AREA_RISIKO", "CROSS-SELL - Smart Home, PV Rooftop, EV Charging")) ∧
    (¬th.median_pendapatan ≤ row.pendapatan → th.median_bandwidth ≤ row.bandwidth_mbps →
      klasifikasi_bw t row =
        ("🔫 ZONA_SNIPER", "UPSELL - Upgrade Bandwidth + Managed Services")) ∧
    (¬th.median_pendapatan ≤ row.pendapatan → ¬th.median_bandwidth ≤ row.bandwidth_mbps →
      klasifikasi_bw t row =
        ("🥚 INKUBATOR", "EDUKASI - Demo Produk & Onboarding")) ∧
    ("🌟 PELANGGAN_BINTANG" : String) ≠ "🎯 AREA_RISIKO" ∧
    ("🌟 PELANGGAN_BINTANG" : String) ≠ "🔫 ZONA_SNIPER" ∧
    ("🌟 PELANGGAN_BINTANG" : String) ≠ "🥚 INKUBATOR" ∧
    ("🎯 AREA_RISIKO" : String) ≠ "🔫 ZONA_SNIPER" ∧
    ("🎯 AREA_RISIKO" : String) ≠ "🥚 INKUBATOR" ∧
    ("🔫 ZONA_SNIPER" : String) ≠ "🥚 INKUBATOR" := by
  refine ⟨?_, ?_, ?_, ?_, by simp, by simp, by simp, by simp, by simp, by simp⟩ <;>
    intro h1 h2 <;>
    simp [klasifikasi_bw, hc, ht, hex, ge_iff_le, h1, h2]

/-- Populated MID-cluster thresholds table for the C2 witness. -/
def tMidW : String → Option ThreshV21 :=
  fun c => if c = "MID_BANDWIDTH_GROUP" then some ⟨2000000, 100, 200, 900000, 2500000⟩ else none

/-- Non-excluded MID-cluster customer above both cluster medians. -/
def rowMidTT : RowV21 := ⟨"MID_BANDWIDTH_GROUP", 3000000, 150, 0, ""⟩

/-- C2 (witness): the amended quadrant mapping evaluated at a concrete
MID-cluster star customer. -/
theorem C2_mid_cluster_quadrants_witness :
    klasifikasi_bw tMidW rowMidTT =
      ("🌟 PELANGGAN_BINTANG", "PERTAHANKAN - Layanan Premium & Dedicated Support") :=
  (C2_mid_cluster_quadrants tMidW rowMidTT ⟨2000000, 100, 200, 900000, 2500000⟩
      rfl (by norm_num [tMidW]) (by norm_num [rowMidTT])).1
    (by norm_num [rowMidTT]) (by norm_num [rowMidTT])

/-- C3: a customer clustered in the lowest bandwidth tier whose parsed
bandwidth is below 1 Mbps is flagged excluded by `segment_customers`
regardless of its revenue, and the `generate_predictions` override then
forces its final upsell score to 0; likewise a highest-tier customer
whose parsed bandwidth exceeds the 5000 Mbps ceiling. -/
theorem C3_exclusion_forces_zero_upsell (r : RowV21) (model_score : ℚ) :
    (r.cluster_bandwidth = "LOW_BANDWIDTH_GROUP" → r.bandwidth_mbps < 1 →
      segment_exclude_upsell r = 1 ∧
        final_upsell_score (segment_exclude_upsell r) model_score = 0) ∧
    (r.cluster_bandwidth = "HIGH_BANDWIDTH_GROUP" → r.bandwidth_mbps > 5000 →
      segment_exclude_upsell r = 1 ∧
        final_upsell_score (segment_exclude_upsell r) model_score = 0) := by
  constructor
  · intro hc hb
    have h1 : segment_exclude_upsell r = 1 := by
      unfold segment_exclude_upsell
      exact if_pos (Or.inl ⟨hc, hb⟩)
    exact ⟨h1, by rw [h1]; rfl⟩
  · intro hc hb
    have h1 : segment_exclude_upsell r = 1 := by
      unfold segment_exclude_upsell
      exact if_pos (Or.inr ⟨hc, hb⟩)
    exact ⟨h1, by rw [h1]; rfl⟩

/-- An ATM-like row: lowest cluster, high revenue, 0.5 Mbps. -/
def rowAtmEx : RowV21 := ⟨"LOW_BANDWIDTH_GROUP", 99999999, 1 / 2, 0, ""⟩

/-- A backbone row: highest cluster, 6000 Mbps. -/
def rowBackboneEx : RowV21 := ⟨"HIGH_BANDWIDTH_GROUP", 0, 6000, 0, ""⟩

/-- C3 (witness): both exclusion criteria evaluated at concrete rows,
with a nonzero model score forced to 0. -/
theorem C3_exclusion_witness :
    (segment_exclude_upsell rowAtmEx = 1 ∧
      final_upsell_score (segment_exclude_upsell rowAtmEx) (9 / 10) = 0) ∧
    (segment_exclude_upsell rowBackboneEx = 1 ∧
      final_upsell_score (segment_exclude_upsell rowBackboneEx) (9 / 10) = 0) :=
  ⟨(C3_exclusion_forces_zero_upsell rowAtmEx (9 / 10)).1 rfl (by norm_num [rowAtmEx]),
   (C3_exclusion_forces_zero_upsell rowBackboneEx (9 / 10)).2 rfl (by norm_num [rowBackboneEx])⟩

/-- C4: the per-cluster threshold bundle of cluster `A` is a function of
the rows whose cluster label is `A` only — any change to the dataframe
that leaves the `A`-filtered rows unchanged (adding, removing,
duplicating, or shuffling members of other clusters) leaves the
thresholds of `A` unchanged; in particular appending a member of a cluster
`B ≠ A` changes nothing. -/
theorem C4_thresholds_use_only_own_cluster :
    (∀ (df df' : List RowV21) (A : String),
        df.filter (fun r => r.cluster_bandwidth == A) =
          df'.filter (fun r => r.cluster_bandwidth == A) →
        cluster_thresholds df A = cluster_thresholds df' A) ∧
    (∀ (df : List RowV21) (r : RowV21) (A B : String), A ≠ B →
        r.cluster_bandwidth = B →
        cluster_thresholds (df ++ [r]) A = cluster_thresholds df A) := by
  have key : ∀ (df df' : List RowV21) (A : String),
      df.filter (fun r => r.cluster_bandwidth == A) =
        df'.filter (fun r => r.cluster_bandwidth == A) →
      cluster_thresholds df A = cluster_thresholds df' A := by
    intro df df' A h
    unfold cluster_thresholds
    rw [h]
  refine ⟨key, fun df r A B hAB hrB => key _ _ _ ?_⟩
  have hne : (r.cluster_bandwidth == A) = false := by
    rw [hrB]
    exact beq_false_of_ne fun h => hAB h.symm
  simp [List.filter_append, List.filter_cons, hne]

/-- Rows used in the C4 witness: one MID-cluster member and LOW-cluster
members that are added and duplicated without affecting MID. -/
def rowMidC4 : RowV21 := ⟨"MID_BANDWIDTH_GROUP", 2000000, 100, 0, ""⟩

/-- A LOW-cluster row for the C4 witness. -/
def rowLowC4 : RowV21 := ⟨"LOW_BANDWIDTH_GROUP", 500000, 5, 0, ""⟩

/-- Another LOW-cluster row for the C4 witness. -/
def rowLowC4b : RowV21 := ⟨"LOW_BANDWIDTH_GROUP", 800000, 2, 1, "ATM/IoT - Tidak butuh upsell broadband"⟩

/-- C4 (witness): duplicating and reshuffling LOW-cluster members leaves
the MID-cluster threshold bundle unchanged, and appending one more
LOW-cluster row leaves it unchanged. -/
theorem C4_thresholds_witness :
    cluster_thresholds [rowMidC4, rowLowC4] "MID_BANDWIDTH_GROUP" =
      cluster_thresholds [rowLowC4b, rowMidC4, rowLowC4, rowLowC4] "MID_BANDWIDTH_GROUP" ∧
    cluster_thresholds ([rowMidC4, rowLowC4] ++ [rowLowC4b]) "MID_BANDWIDTH_GROUP" =
      cluster_thresholds [rowMidC4, rowLowC4] "MID_BANDWIDTH_GROUP" :=
  ⟨C4_thresholds_use_only_own_cluster.1 _ _ _ (by
      simp [rowMidC4, rowLowC4, rowLowC4b]),
   C4_thresholds_use_only_own_cluster.2 [rowMidC4, rowLowC4] rowLowC4b
      "MID_BANDWIDTH_GROUP" "LOW_BANDWIDTH_GROUP" (by decide) rfl⟩

/-- C5 (counterexample, `classify_customer` of cvo_nbo_v30.py): a
`CORPORATE` customer whose cluster has no computed threshold entry is
not routed to an uncategorized label — the chained `.get(cluster,
{}).get(key, 0)` defaults silently substitute zero thresholds, so the
customer classifies exactly as if the cluster medians were 0 and
receives the definite `[STAR] CORPORATE BINTANG` quadrant. -/
theorem C5_v30_zero_substitution_counterexample :
    classify_customer (fun _ => none) ⟨"CORPORATE", 5000000, 50⟩ =
      ("[STAR] CORPORATE BINTANG", "PERTAHANKAN - Premium Support & Bundle") ∧
    classify_customer (fun _ => none) ⟨"CORPORATE", 5000000, 50⟩ =
      classify_customer (fun _ => some ⟨0, 0, 0, 0⟩) ⟨"CORPORATE", 5000000, 50⟩ ∧
    ("[STAR] CORPORATE BINTANG" : String) ≠ " UNKNOWN" := by
  have h1 : classify_customer (fun _ => none) ⟨"CORPORATE", 5000000, 50⟩ =
      ("[STAR] CORPORATE BINTANG", "PERTAHANKAN - Premium Support & Bundle") := by
    simp [classify_customer, thrGet]
  have h2 : classify_customer (fun _ => some ⟨0, 0, 0, 0⟩) ⟨"CORPORATE", 5000000, 50⟩ =
      ("[STAR] CORPORATE BINTANG", "PERTAHANKAN - Premium Support & Bundle") := by
    simp [classify_customer, thrGet]
  exact ⟨h1, h1.trans h2.symm, by decide⟩

/-- C5 (amended): in the v21 engine, a customer whose cluster has no
computed threshold entry — the `TIDAK_DIKETAHUI` placeholder or any
cluster missing from the table, which by construction is exactly an
empty cluster — is routed by `klasifikasi_bw` to the explicit
`❓ BELUM_TERKATEGORI / PERLU_ANALISIS` label (the function is total, so
it cannot raise, divide by zero, or propagate NaN). The v30
`classify_customer`, by contrast, silently substitutes zero thresholds
for a missing entry (see the counterexample); in its own pipeline that
state is unreachable because the cluster of every customer contains at least
that customer. -/
theorem C5_missing_thresholds_uncategorized :
    (∀ (t : String → Option ThreshV21) (row : RowV21),
        row.cluster_bandwidth = "TIDAK_DIKETAHUI" ∨ t row.cluster_bandwidth = none →
        klasifikasi_bw t row =
          ("❓ BELUM_TERKATEGORI", "PERLU_ANALISIS - Data tidak lengkap")) ∧
    (∀ (df : List RowV21) (c : String),
        df.filter (fun r => r.cluster_bandwidth == c) = [] →
        cluster_thresholds df c = none) := by
  constructor
  · intro t row h
    rcases h with h | h
    · simp [klasifikasi_bw, h]
    · unfold klasifikasi_bw
      dsimp only
      rw [h]
      split_ifs <;> rfl
  · intro df c h
    unfold cluster_thresholds
    rw [h]
    simp

/-- C5 (witness): a customer of an empty cluster — whose threshold entry
is absent by the second conjunct — receives the uncategorized label, at
a concrete table and row. -/
theorem C5_missing_thresholds_witness :
    cluster_thresholds [rowMidC4] "HIGH_BANDWIDTH_GROUP" = none ∧
    klasifikasi_bw (cluster_thresholds [rowMidC4]) ⟨"HIGH_BANDWIDTH_GROUP", 7, 7, 0, ""⟩ =
      ("❓ BELUM_TERKATEGORI", "PERLU_ANALISIS - Data tidak lengkap") := by
  have hnone : cluster_thresholds [rowMidC4] "HIGH_BANDWIDTH_GROUP" = none :=
    C5_missing_thresholds_uncategorized.2 [rowMidC4] "HIGH_BANDWIDTH_GROUP"
      (by simp [rowMidC4])
  exact ⟨hnone,
    C5_missing_thresholds_uncategorized.1 (cluster_thresholds [rowMidC4])
      ⟨"HIGH_BANDWIDTH_GROUP", 7, 7, 0, ""⟩ (Or.inr hnone)⟩

/-- C6: the bandwidth normalizer is total — for every input (missing
cell, empty, sentinel, garbage, or well-formed) it returns a tag from
the documented set and a non-negative Mbps value, and being a total Lean
function it cannot raise. -/
theorem C6_bandwidth_normalizer_total (input : Option String) :
    ((parse_bandwidth_smart input).2 = "Connectivity" ∨
     (parse_bandwidth_smart input).2 = "IP-Only" ∨
     (parse_bandwidth_smart input).2 = "Non-Connectivity" ∨
     (parse_bandwidth_smart input).2 = "Unknown") ∧
    0 ≤ ((parse_bandwidth_smart input).1 : ℤ) := by
  refine ⟨?_, Int.ofNat_nonneg _⟩
  unfold parse_bandwidth_smart
  rcases input with _ | s
  · simp
  · dsimp only
    split_ifs
    all_goals try exact Or.inr (Or.inr (Or.inl rfl))
    all_goals try exact Or.inr (Or.inl rfl)
    all_goals rcases hfm : findBwMatch (pyStrip (pyUpper s)).data with _ | ⟨n, b⟩ <;> try cases b
    all_goals
      first
        | exact Or.inl rfl
        | exact Or.inr (Or.inr (Or.inr rfl))

/-- C7 (counterexample): the empty string is not caught by the
null-or-sentinel branch of `parse_bandwidth_smart` (`pd.isna("")` is
false and `"" != "Tidak Ada"`); it falls through every pattern and
returns `(0, "Unknown")`, not `(0, "Non-Connectivity")`. -/
theorem C7_empty_string_counterexample :
    parse_bandwidth_smart (some "") = (0, "Unknown") ∧
    ((0 : ℕ), ("Unknown" : String)) ≠ ((0 : ℕ), ("Non-Connectivity" : String)) := by
  exact ⟨rfl, by simp⟩

/-- C7 (amended): a missing value or the literal `Tidak Ada` sentinel
maps to `(0, "Non-Connectivity")`, but the empty string instead falls
through to `(0, "Unknown")`. -/
theorem C7_null_and_sentinel_nonconnectivity :
    parse_bandwidth_smart none = (0, "Non-Connectivity") ∧
    parse_bandwidth_smart (some "Tidak Ada") = (0, "Non-Connectivity") ∧
    parse_bandwidth_smart (some "") = (0, "Unknown") :=
  ⟨rfl, rfl, rfl⟩

/-! Character-classification lemmas used to discharge the dead earlier
branches of `clean_tenure_smart` on sentinel inputs. -/

theorem startsWithL_mem : ∀ pat l : List Char, startsWithL pat l = true →
    ∀ c ∈ pat, c ∈ l
  | [], _, _, _, hc => absurd hc (List.not_mem_nil _)
  | _ :: _, [], h, _, _ => by simp [startsWithL] at h
  | a :: as, b :: bs, h, c, hc => by
      rw [startsWithL] at h
      obtain ⟨hab, hrest⟩ := Bool.and_eq_true_iff.mp h
      rcases List.mem_cons.mp hc with hca | hcas
      · exact List.mem_cons.mpr (Or.inl (hca.trans (eq_of_beq hab)))
      · exact List.mem_cons.mpr (Or.inr (startsWithL_mem as bs hrest c hcas))

theorem containsL_mem : ∀ l pat : List Char, containsL l pat = true →
    ∀ c ∈ pat, c ∈ l
  | [], pat, h, c, hc => by
      rw [containsL] at h
      rw [List.isEmpty_iff.mp h] at hc
      exact absurd hc (List.not_mem_nil _)
  | p :: rest, pat, h, c, hc => by
      rw [containsL] at h
      rcases Bool.or_eq_true_iff.mp h with hpre | hrec
      · exact startsWithL_mem pat (p :: rest) hpre c hc
      · exact List.mem_cons.mpr (Or.inr (containsL_mem rest pat hrec c hc))

theorem strContains_mem (s pat : String) (h : strContains s pat = true) :
    ∀ c ∈ pat.data, c ∈ s.data := containsL_mem s.data pat.data h

theorem qRest_chars : ∀ l : List Char, qRest l = true →
    ∀ c ∈ l, c.isDigit = true ∨ c = squote
  | [], h, _, _ => by simp [qRest] at h
  | [c0], h, c, hc => by
      rw [qRest] at h
      rw [List.mem_singleton.mp hc]
      exact Or.inr (eq_of_beq h)
  | c0 :: c1 :: rest, h, c, hc => by
      have h2 : (c0.isDigit && qRest (c1 :: rest)) = true := h
      obtain ⟨hd, hrest⟩ := Bool.and_eq_true_iff.mp h2
      rcases List.mem_cons.mp hc with hc0 | hc1
      · exact Or.inl (hc0 ▸ hd)
      · exact qRest_chars (c1 :: rest) hrest c hc1

theorem qDigits_chars : ∀ l : List Char, qDigits l = true →
    ∀ c ∈ l, c.isDigit = true ∨ c = squote
  | [], h, _, _ => by simp [qDigits] at h
  | [_], h, _, _ => by simp [qDigits] at h
  | c0 :: c1 :: rest, h, c, hc => by
      have h2 : (c0.isDigit && qRest (c1 :: rest)) = true := h
      obtain ⟨hd, hrest⟩ := Bool.and_eq_true_iff.mp h2
      rcases List.mem_cons.mp hc with hc0 | hc1
      · exact Or.inl (hc0 ▸ hd)
      · exact qRest_chars (c1 :: rest) hrest c hc1

theorem isQuotedDigits_chars (s : String) (h : isQuotedDigits s = true) :
    ∀ c ∈ s.data, c.isDigit = true ∨ c = squote := by
  intro c hc
  unfold isQuotedDigits at h
  rcases hdata : s.data with _ | ⟨c0, rest⟩
  · rw [hdata] at h
    simp at h
  · rw [hdata] at h hc
    obtain ⟨hq, hrest⟩ := Bool.and_eq_true_iff.mp h
    rcases List.mem_cons.mp hc with hc0 | hcr
    · exact Or.inr (hc0.trans (eq_of_beq hq))
    · exact qDigits_chars rest hrest c hcr

/-- A string containing a character that is neither a digit nor a
single quote hits neither the bare-digit branch nor the quoted-digit
branch of `clean_tenure_smart`. -/
theorem branch_guards_false (s : String) (c : Char) (hc : c ∈ s.data)
    (h1 : c.isDigit = false) (h2 : c ≠ squote) :
    pyIsDigit s = false ∧ isQuotedDigits s = false := by
  constructor
  · cases hall : s.data.all Char.isDigit
    · simp [pyIsDigit, hall]
    · exact absurd (List.all_eq_true.mp hall c hc) (by simp [h1])
  · cases hq : isQuotedDigits s
    · rfl
    · rcases isQuotedDigits_chars s hq c hc with hd | hsq
      · rw [h1] at hd
        exact absurd hd (by simp)
      · exact absurd hsq h2

/-- C8: the tenure cleaner maps any stripped input containing the
future-contract sentinel word `Berkontrak` to 0; maps the invalid-data
sentinel `Data Tidak Valid` to 3 — the documented dataset median — and
not to 0; on free text hitting none of the earlier branches it extracts
the first embedded number (capped at 26); and every returned value is at
most the fixed maximum allowed tenure of 26. -/
theorem C8_tenure_cleaner (v : String) :
    (strContains (pyStrip v) "Berkontrak" = true → clean_tenure_smart (some v) = 0) ∧
    (clean_tenure_smart (some "Data Tidak Valid") = 3 ∧ (3 : ℕ) ≠ 0) ∧
    (strContains (pyStrip v) "Tidak Valid" = true →
      strContains (pyStrip v) "Berkontrak" = false →
      clean_tenure_smart (some v) = 3) ∧
    (∀ n : ℕ, pyIsDigit (pyStrip v) = false → isQuotedDigits (pyStrip v) = false →
      strContains (pyStrip v) "Berkontrak" = false →
      strContains (pyStrip v) "Tidak Valid" = false →
      strContains (pyStrip v) "Invalid" = false →
      firstNumber (pyStrip v).data = some n →
      clean_tenure_smart (some v) = min n 26) ∧
    (∀ input : Option String, clean_tenure_smart input ≤ 26) := by
  refine ⟨?_, ⟨by decide, by decide⟩, ?_, ?_, ?_⟩
  · intro hb
    obtain ⟨hd, hq⟩ := branch_guards_false (pyStrip v) 'B'
      (strContains_mem _ _ hb 'B' (by decide)) (by decide) (by decide)
    unfold clean_tenure_smart
    dsimp only
    rw [hd, hq, hb]
    simp
  · intro htv hb
    obtain ⟨hd, hq⟩ := branch_guards_false (pyStrip v) 'V'
      (strContains_mem _ _ htv 'V' (by decide)) (by decide) (by decide)
    unfold clean_tenure_smart
    dsimp only
    rw [hd, hq, hb, htv]
    simp
  · intro n hd hq hb htv hinv hfn
    unfold clean_tenure_smart
    dsimp only
    rw [hd, hq, hb, htv, hinv, hfn]
    simp
  · intro input
    rcases input with _ | v'
    · simp [clean_tenure_smart]
    · unfold clean_tenure_smart
      dsimp only
      split_ifs
      · exact min_le_right _ _
      · exact min_le_right _ _
      · exact Nat.zero_le _
      · omega
      · rcases hfn : firstNumber (pyStrip v').data with _ | n
        · simp [hfn]
        · simp only [hfn]
          exact min_le_right _ _

/-- C8 (witness): the cleaner evaluated through the theorem at the
concrete sentinel phrases, a free-text input with an embedded
out-of-range number, and an arbitrary input for the cap. -/
theorem C8_tenure_cleaner_witness :
    clean_tenure_smart (some "Berkontrak di Tahun 2026") = 0 ∧
    clean_tenure_smart (some "Data Tidak Valid") = 3 ∧
    clean_tenure_smart (some "Kontrak Data Tidak Valid 2024") = 3 ∧
    clean_tenure_smart (some "sekitar 30 tahun") = min 30 26 ∧
    clean_tenure_smart (some "999") ≤ 26 :=
  ⟨(C8_tenure_cleaner "Berkontrak di Tahun 2026").1 (by decide),
   (C8_tenure_cleaner "Data Tidak Valid").2.1.1,
   (C8_tenure_cleaner "Kontrak Data Tidak Valid 2024").2.2.1 (by decide) (by decide),
   (C8_tenure_cleaner "sekitar 30 tahun").2.2.2.1 30 (by decide) (by decide)
     (by decide) (by decide) (by decide) (by decide),
   (C8_tenure_cleaner "999").2.2.2.2 (some "999")⟩

/-! Counting lemmas for the co-occurrence builder. -/

/-- Contribution of the product list of one customer to the cell `(a, b)` of
the co-occurrence table: over every ordered position pair `i < j`, one
increment per matching orientation. -/
def cellCount (a b : String) : List String → ℕ
  | [] => 0
  | p :: rest =>
      (rest.countP fun q => decide (a = p ∧ b = q)) +
        (rest.countP fun q => decide (a = q ∧ b = p)) + cellCount a b rest

theorem innerLoop_apply (p1 a b : String) :
    ∀ (ps : List String) (co : CoMat),
      innerLoop p1 ps co a b =
        co a b + (ps.countP fun q => decide (a = p1 ∧ b = q)) +
          (ps.countP fun q => decide (a = q ∧ b = p1))
  | [], co => by simp [innerLoop]
  | q :: ps, co => by
      have ih := innerLoop_apply p1 a b ps (bumpPair co p1 q)
      have hstep : innerLoop p1 (q :: ps) co = innerLoop p1 ps (bumpPair co p1 q) := rfl
      rw [hstep, ih]
      simp only [bumpPair, List.countP_cons, decide_eq_true_eq]
      split_ifs <;> omega

theorem pairLoop_apply (a b : String) :
    ∀ (ps : List String) (co : CoMat),
      pairLoop ps co a b = co a b + cellCount a b ps
  | [], co => by simp [pairLoop, cellCount]
  | p :: rest, co => by
      have ih := pairLoop_apply a b rest (innerLoop p rest co)
      have hstep : pairLoop (p :: rest) co = pairLoop rest (innerLoop p rest co) := rfl
      rw [hstep, ih, innerLoop_apply]
      simp only [cellCount]
      omega

theorem buildAux_apply (a b : String) :
    ∀ (customers : List (List String)) (co : CoMat),
      customers.foldl (fun co ps => pairLoop ps co) co a b =
        co a b + (customers.map fun l => cellCount a b l).sum
  | [], co => by simp
  | l :: ls, co => by
      have ih := buildAux_apply a b ls (pairLoop l co)
      simp only [List.foldl_cons, List.map_cons, List.sum_cons]
      rw [ih, pairLoop_apply]
      omega

theorem build_cooccurrence_apply (customers : List (List String)) (a b : String) :
    build_cooccurrence_matrix customers a b =
      (customers.map fun l => cellCount a b l).sum := by
  unfold build_cooccurrence_matrix
  rw [buildAux_apply]
  omega

theorem cellCount_symm (a b : String) : ∀ l : List String, cellCount a b l = cellCount b a l
  | [] => rfl
  | p :: rest => by
      have ih := cellCount_symm a b rest
      simp only [cellCount]
      have h1 : (rest.countP fun q => decide (a = p ∧ b = q)) =
          (rest.countP fun q => decide (b = q ∧ a = p)) :=
        List.countP_congr fun x _ => by
          simp only [decide_eq_true_eq]
          exact and_comm
      have h2 : (rest.countP fun q => decide (a = q ∧ b = p)) =
          (rest.countP fun q => decide (b = p ∧ a = q)) :=
        List.countP_congr fun x _ => by
          simp only [decide_eq_true_eq]
          exact and_comm
      omega

theorem countP_eq_mem (x : String) :
    ∀ l : List String, l.Nodup → (l.countP fun q => decide (x = q)) = if x ∈ l then 1 else 0
  | [], _ => by simp
  | p :: rest, hnd => by
      obtain ⟨hpn, hnd'⟩ := List.nodup_cons.mp hnd
      have ih := countP_eq_mem x rest hnd'
      simp only [List.countP_cons, decide_eq_true_eq, List.mem_cons]
      rw [ih]
      by_cases hxp : x = p
      · subst hxp
        simp [hpn]
      · simp [hxp]

theorem cellCount_nodup (a b : String) (hab : a ≠ b) :
    ∀ l : List String, l.Nodup → cellCount a b l = if a ∈ l ∧ b ∈ l then 1 else 0
  | [], _ => by simp [cellCount]
  | p :: rest, hnd => by
      obtain ⟨hpn, hnd'⟩ := List.nodup_cons.mp hnd
      have ih := cellCount_nodup a b hab rest hnd'
      simp only [cellCount]
      have h1 : (rest.countP fun q => decide (a = p ∧ b = q)) =
          if a = p then (if b ∈ rest then 1 else 0) else 0 := by
        by_cases hap : a = p
        · rw [if_pos hap, ← countP_eq_mem b rest hnd']
          exact List.countP_congr fun x _ => by simp [hap]
        · rw [if_neg hap]
          exact List.countP_eq_zero.mpr fun x _ => by simp [hap]
      have h2 : (rest.countP fun q => decide (a = q ∧ b = p)) =
          if b = p then (if a ∈ rest then 1 else 0) else 0 := by
        by_cases hbp : b = p
        · rw [if_pos hbp, ← countP_eq_mem a rest hnd']
          exact List.countP_congr fun x _ => by
            simp only [decide_eq_true_eq]
            simp [hbp]
        · rw [if_neg hbp]
          exact List.countP_eq_zero.mpr fun x _ => by simp [hbp]
      rw [h1, h2, ih]
      simp only [List.mem_cons]
      by_cases hap : a = p <;> by_cases hbp : b = p
      · exact absurd (hap.trans hbp.symm) hab
      · subst hap
        simp [hbp, hpn]
      · subst hbp
        simp [hap, hpn]
      · simp [hap, hbp]

theorem cellCount_diag_nodup (a : String) :
    ∀ l : List String, l.Nodup → cellCount a a l = 0
  | [], _ => by simp [cellCount]
  | p :: rest, hnd => by
      obtain ⟨hpn, hnd'⟩ := List.nodup_cons.mp hnd
      have ih := cellCount_diag_nodup a rest hnd'
      simp only [cellCount]
      have h1 : (rest.countP fun q => decide (a = p ∧ a = q)) = 0 :=
        List.countP_eq_zero.mpr fun x hx => by
          simp only [decide_eq_true_eq]
          rintro ⟨hap, hax⟩
          exact hpn (by rw [show p = x from hap.symm.trans hax]; exact hx)
      have h2 : (rest.countP fun q => decide (a = q ∧ a = p)) = 0 :=
        List.countP_eq_zero.mpr fun x hx => by
          simp only [decide_eq_true_eq]
          rintro ⟨hax, hap⟩
          exact hpn (by rw [show p = x from hap.symm.trans hax]; exact hx)
      omega

theorem sum_cellCount_eq_countBoth (a b : String) (hab : a ≠ b) :
    ∀ customers : List (List String), (∀ l ∈ customers, l.Nodup) →
      (customers.map fun l => cellCount a b l).sum = countBoth customers a b
  | [], _ => rfl
  | l :: ls, hnd => by
      have ih := sum_cellCount_eq_countBoth a b hab ls
        fun x hx => hnd x (List.mem_cons.mpr (Or.inr hx))
      simp only [List.map_cons, List.sum_cons, countBoth, List.countP_cons] at ih ⊢
      rw [cellCount_nodup a b hab l (hnd l (List.mem_cons.mpr (Or.inl rfl))), ih]
      simp only [Bool.and_eq_true, decide_eq_true_eq]
      split_ifs <;> omega

/-- C9 (counterexample): when the product list of a customer contains a
duplicate entry, the double loop of `build_cooccurrence_matrix` is not
"one increment per unordered pair of distinct products": the list
`[A, A]` increments the diagonal cell `(A, A)` — which is not a pair of
distinct products — to 2, and the list `[A, B, A]` counts the single
distinct pair `{A, B}` twice while only one customer holds both. -/
theorem C9_duplicate_products_counterexample :
    build_cooccurrence_matrix [["A", "A"]] "A" "A" = 2 ∧
    build_cooccurrence_matrix [["A", "B", "A"]] "A" "B" = 2 ∧
    countBoth [["A", "B", "A"]] "A" "B" = 1 := by
  refine ⟨?_, ?_, ?_⟩ <;> decide

/-- C9 (amended): the co-occurrence table built by
`build_cooccurrence_matrix` is symmetric for every input; and when every
product list of every customer is duplicate-free, each off-diagonal counter
`(a, b)` equals the number of customers holding both `a` and `b` (one
increment per unordered pair of distinct products per customer) and the
diagonal is never incremented. With duplicated list entries the counter
is instead incremented once per position pair, including diagonal
cells. -/
theorem C9_cooccurrence_symmetric_and_counts :
    (∀ (customers : List (List String)) (a b : String),
        build_cooccurrence_matrix customers a b =
          build_cooccurrence_matrix customers b a) ∧
    (∀ (customers : List (List String)) (a b : String),
        (∀ l ∈ customers, l.Nodup) → a ≠ b →
        build_cooccurrence_matrix customers a b = countBoth customers a b) ∧
    (∀ (customers : List (List String)) (a : String),
        (∀ l ∈ customers, l.Nodup) →
        build_cooccurrence_matrix customers a a = 0) := by
  refine ⟨fun customers a b => ?_, fun customers a b hnd hab => ?_,
    fun customers a hnd => ?_⟩
  · rw [build_cooccurrence_apply, build_cooccurrence_apply]
    congr 1
    exact List.map_congr_left fun l _ => cellCount_symm a b l
  · rw [build_cooccurrence_apply, sum_cellCount_eq_countBoth a b hab customers hnd]
  · rw [build_cooccurrence_apply]
    have : (customers.map fun l => cellCount a a l) =
        customers.map fun _ => 0 :=
      List.map_congr_left fun l hl => cellCount_diag_nodup a l (hnd l hl)
    rw [this]
    simp

/-- C9 (witness): on duplicate-free product lists, the built table
matches the customers-holding-both count, and the diagonal is 0, at a
concrete input. -/
theorem C9_cooccurrence_witness :
    build_cooccurrence_matrix [["A", "B"], ["B", "C"], ["B"]] "A" "B" =
      countBoth [["A", "B"], ["B", "C"], ["B"]] "A" "B" ∧
    build_cooccurrence_matrix [["A", "B"], ["B", "C"], ["B"]] "B" "B" = 0 :=
  ⟨C9_cooccurrence_symmetric_and_counts.2.1 [["A", "B"], ["B", "C"], ["B"]] "A" "B"
      (by decide) (by decide),
   C9_cooccurrence_symmetric_and_counts.2.2 [["A", "B"], ["B", "C"], ["B"]] "B"
      (by decide)⟩
